import Mathlib

/-!
Shallow embedding of the Omnibrowser backend
(src/tauri-migration/src-tauri/src/main.rs) and the Process & Stream
Supervision Engine of its specification.

The backend's relay commands consume an HTTP byte stream as a list of
chunks; each chunk either failed, is not valid UTF-8, or decodes to a
list of lines; each line is blank, non-JSON, or a decoded record with an
optional boolean terminal marker and an optional text fragment.  The
external libraries (reqwest, serde_json, tauri) are abstracted as the
outcomes they can produce; all control flow of the commands themselves
is embedded directly.
-/

namespace Omnibrowser

/-- A decoded JSON record of the streaming protocol: `done` holds exactly
when the record's terminal-marker field equals `true`
(`json["done"] == true` in the source), `response` is the result of
`json["response"].as_str()`. -/
structure Record where
  done : Bool
  response : Option String
deriving DecidableEq

/-- One line of a decoded chunk: empty or whitespace-only
(`line.trim().is_empty()`), a line that fails `serde_json::from_str`, or a
decoded record. -/
inductive Line where
  | blank : Line
  | badJson : Line
  | record (r : Record) : Line
deriving DecidableEq

/-- One element of the response byte stream: a chunk-level transport error
(`chunk` is `Err`), bytes that fail `std::str::from_utf8`, or valid text
split into lines. -/
inductive Chunk where
  | chunkErr : Chunk
  | notUtf8 : Chunk
  | text (lines : List Line) : Chunk
deriving DecidableEq

/-- Outcome of the initial streaming HTTP request: `send()` failed, or a
response arrived with a status (`res.status().is_success()`) and a body
stream of chunks. -/
inductive Transport where
  | sendFail : Transport
  | response (success : Bool) (chunks : List Chunk) : Transport
deriving DecidableEq

/-- The named events the backend emits to the window (the Event Sink),
with their payloads.  Prices are modelled as rationals in place of f64. -/
inductive Event where
  | researchStart (query : String) : Event
  | researchToken (t : String) : Event
  | researchEnd : Event
  | tradePrice (price change : ℚ) : Event
  | tradeStreamStart (symbol : String) : Event
  | tradeToken (t : String) : Event
  | tradeStreamEnd : Event
deriving DecidableEq

/-- Inner loop of the relay over the lines of one chunk, abstracted over
the token-event and end-event constructors (the two relay commands differ
only in event names).  Returns the events emitted for this chunk and
whether a terminal record was seen (in the source, seeing one emits the
end event and returns `Ok(())` immediately, skipping the rest of the
chunk and stream). -/
def processLines (tok : String → Event) (endE : Event) : List Line → List Event × Bool
  | [] => ([], false)
  | Line.blank :: rest => processLines tok endE rest
  | Line.badJson :: rest => processLines tok endE rest
  | Line.record r :: rest =>
    if r.done then ([endE], true)
    else
      match r.response with
      | some t =>
        let p := processLines tok endE rest
        (tok t :: p.1, p.2)
      | none => processLines tok endE rest

/-- Outer loop of the relay over the chunks of the body stream
(`while let Some(chunk) = stream.next().await`): failed and non-UTF-8
chunks are skipped, and processing stops at the first terminal record. -/
def processChunks (tok : String → Event) (endE : Event) : List Chunk → List Event × Bool
  | [] => ([], false)
  | Chunk.chunkErr :: rest => processChunks tok endE rest
  | Chunk.notUtf8 :: rest => processChunks tok endE rest
  | Chunk.text ls :: rest =>
    let p := processLines tok endE ls
    if p.2 then (p.1, true)
    else
      let q := processChunks tok endE rest
      (p.1 ++ q.1, q.2)

/-- The `research_stream` command: on a failed send or a non-success
status no event is emitted and the error string is returned; on a success
status the start event is emitted, the chunks are relayed, and the result
is `Ok` exactly when a terminal record was seen (otherwise the fall
through to `Err("Ollama not responding")`). -/
def research_stream (query : String) (t : Transport) : List Event × Except String Unit :=
  match t with
  | Transport.sendFail => ([], Except.error "Ollama not responding")
  | Transport.response success chunks =>
    if success then
      let p := processChunks Event.researchToken Event.researchEnd chunks
      if p.2 then (Event.researchStart query :: p.1, Except.ok ())
      else (Event.researchStart query :: p.1, Except.error "Ollama not responding")
    else ([], Except.error "Ollama not responding")

/-- The decoded body of a Yahoo chart response, reduced to the two fields
the backend reads (`chart.result[0].meta.regularMarketPrice` and
`regularMarketChangePercent`); `none` models an absent or non-numeric
field (`as_f64()` returning `None`). -/
structure YahooChart where
  regularMarketPrice : Option ℚ
  regularMarketChangePercent : Option ℚ
deriving DecidableEq

/-- Outcome of one blocking quote request against a provider identifier:
the send failed, the body failed to decode as JSON, or a decoded chart
arrived. -/
inductive FetchOutcome where
  | sendFail (msg : String) : FetchOutcome
  | jsonFail (msg : String) : FetchOutcome
  | ok (chart : YahooChart) : FetchOutcome
deriving DecidableEq

/-- The static symbol lookup shared by `trade_stream` and `trade_api`:
`if symbol == "NIFTY" { "^NSEI" } else { "^NSEBANK" }`. -/
def yahooSymbol (symbol : String) : String :=
  if symbol == "NIFTY" then "^NSEI" else "^NSEBANK"

/-- The `price_res` value of `trade_stream`:
`send().await.ok().and_then(|r| r.json().await.ok())` collapses both the
transport failure and the decode failure to `None`. -/
def priceResOf (symbol : String) (fetch : String → FetchOutcome) : Option YahooChart :=
  match fetch (yahooSymbol symbol) with
  | FetchOutcome.ok chart => some chart
  | FetchOutcome.sendFail _ => none
  | FetchOutcome.jsonFail _ => none

/-- The quote-with-fallback path of `trade_stream`: each field is read
from the optional response and defaulted (`unwrap_or(25000.0)` for the
price, `unwrap_or(0.0)` for the change). -/
def quoteWithFallback (symbol : String) (fetch : String → FetchOutcome) : ℚ × ℚ :=
  let price_res := priceResOf symbol fetch
  ((price_res.bind YahooChart.regularMarketPrice).getD 25000,
   (price_res.bind YahooChart.regularMarketChangePercent).getD 0)

/-- The `trade_stream` command: it first emits the `trade-price` event
with the fallback quote, then runs the same relay loop as
`research_stream` with the trade event names; unlike `research_stream`
it ends in `Ok(())` on every path (failed send, non-success status, and
a stream that closes without a terminal record included). -/
def trade_stream (symbol : String) (fetch : String → FetchOutcome) (t : Transport) :
    List Event × Except String Unit :=
  let pc := quoteWithFallback symbol fetch
  let priceEv := Event.tradePrice pc.1 pc.2
  match t with
  | Transport.sendFail => ([priceEv], Except.ok ())
  | Transport.response success chunks =>
    if success then
      let p := processChunks Event.tradeToken Event.tradeStreamEnd chunks
      (priceEv :: Event.tradeStreamStart symbol :: p.1, Except.ok ())
    else ([priceEv], Except.ok ())

/-- The `trade_api` command: the same request as the quote path, but a
send failure maps to `Err("Yahoo API failed: ...")` and a decode failure
to `Err("JSON parse failed: ...")` instead of a default. -/
def trade_api (symbol : String) (fetch : String → FetchOutcome) : Except String YahooChart :=
  match fetch (yahooSymbol symbol) with
  | FetchOutcome.sendFail e => Except.error ("Yahoo API failed: " ++ e)
  | FetchOutcome.jsonFail e => Except.error ("JSON parse failed: " ++ e)
  | FetchOutcome.ok chart => Except.ok chart

/-- Records contributed by one line: non-record lines contribute none. -/
def lineRecords : Line → List Record
  | Line.record r => [r]
  | Line.blank => []
  | Line.badJson => []

/-- Records contributed by one chunk: failed and non-UTF-8 chunks
contribute none. -/
def chunkRecords : Chunk → List Record
  | Chunk.text ls => (ls.map lineRecords).flatten
  | Chunk.chunkErr => []
  | Chunk.notUtf8 => []

/-- The decoded records of a body stream, in arrival order. -/
def decodedRecords (cs : List Chunk) : List Record :=
  (cs.map chunkRecords).flatten

/-- The relay loop expressed directly on the decoded record sequence;
`processChunks` is proved equal to it below. -/
def processRecords (tok : String → Event) (endE : Event) : List Record → List Event × Bool
  | [] => ([], false)
  | r :: rest =>
    if r.done then ([endE], true)
    else
      match r.response with
      | some t =>
        let p := processRecords tok endE rest
        (tok t :: p.1, p.2)
      | none => processRecords tok endE rest

/-- One `window.emit(..).ok()` call against an explicit Event Sink: the
sink is consulted for the outcome of emission number `n` and the result
is discarded (`.ok()` drops the `Result`), leaving only the advanced
emission counter. -/
def emitAttempt (sink : ℕ → Bool) (n : ℕ) : ℕ :=
  let _delivered := sink n
  n + 1

/-- The line loop with the Event Sink outcome oracle threaded through:
each emission consults the sink and discards the answer, exactly as the
source discards every `emit` result. -/
def processLinesS (sink : ℕ → Bool) (tok : String → Event) (endE : Event) :
    List Line → ℕ → (List Event × Bool) × ℕ
  | [], n => (([], false), n)
  | Line.blank :: rest, n => processLinesS sink tok endE rest n
  | Line.badJson :: rest, n => processLinesS sink tok endE rest n
  | Line.record r :: rest, n =>
    if r.done then (([endE], true), emitAttempt sink n)
    else
      match r.response with
      | some t =>
        let p := processLinesS sink tok endE rest (emitAttempt sink n)
        ((tok t :: p.1.1, p.1.2), p.2)
      | none => processLinesS sink tok endE rest n

/-- The chunk loop with the Event Sink outcome oracle threaded through. -/
def processChunksS (sink : ℕ → Bool) (tok : String → Event) (endE : Event) :
    List Chunk → ℕ → (List Event × Bool) × ℕ
  | [], n => (([], false), n)
  | Chunk.chunkErr :: rest, n => processChunksS sink tok endE rest n
  | Chunk.notUtf8 :: rest, n => processChunksS sink tok endE rest n
  | Chunk.text ls :: rest, n =>
    let p := processLinesS sink tok endE ls n
    if p.1.2 then ((p.1.1, true), p.2)
    else
      let q := processChunksS sink tok endE rest p.2
      ((p.1.1 ++ q.1.1, q.1.2), q.2)

/-- The `research_stream` command with every emission routed through an
explicit Event Sink outcome oracle. -/
def research_streamS (query : String) (t : Transport) (sink : ℕ → Bool) :
    List Event × Except String Unit :=
  match t with
  | Transport.sendFail => ([], Except.error "Ollama not responding")
  | Transport.response success chunks =>
    if success then
      let n1 := emitAttempt sink 0
      let p := processChunksS sink Event.researchToken Event.researchEnd chunks n1
      if p.1.2 then (Event.researchStart query :: p.1.1, Except.ok ())
      else (Event.researchStart query :: p.1.1, Except.error "Ollama not responding")
    else ([], Except.error "Ollama not responding")

/-- The `trade_stream` command with every emission routed through an
explicit Event Sink outcome oracle (the `trade-price` emit is attempt 0,
the start event attempt 1). -/
def trade_streamS (symbol : String) (fetch : String → FetchOutcome) (t : Transport)
    (sink : ℕ → Bool) : List Event × Except String Unit :=
  let pc := quoteWithFallback symbol fetch
  let priceEv := Event.tradePrice pc.1 pc.2
  let n1 := emitAttempt sink 0
  match t with
  | Transport.sendFail => ([priceEv], Except.ok ())
  | Transport.response success chunks =>
    if success then
      let n2 := emitAttempt sink n1
      let p := processChunksS sink Event.tradeToken Event.tradeStreamEnd chunks n2
      (priceEv :: Event.tradeStreamStart symbol :: p.1.1, Except.ok ())
    else ([priceEv], Except.ok ())

/-- A process launch attempt: executable name, argument list, optional
working directory. -/
structure LaunchSpec where
  program : String
  args : List String
  cwd : Option String
deriving DecidableEq

/-- Host facts the startup sequence branches on: the outcome of the
`ollama list` probe (`output().ok().map(|o| o.status.success())`),
whether `app_local_data_dir()` resolved, and whether the joined `bin`
directory exists. -/
structure StartupEnv where
  ollamaListOutput : Option Bool
  binDir : Option String
  binDirExists : Bool

/-- The `cmd /C start /B ollama serve` spec. -/
def ollamaServeSpec : LaunchSpec :=
  ⟨"cmd", ["/C", "start", "/B", "ollama", "serve"], none⟩

/-- The `ollama pull llama3.2:3b` spec. -/
def ollamaPullSpec : LaunchSpec :=
  ⟨"ollama", ["pull", "llama3.2:3b"], none⟩

/-- The MeiliSearch-from-bin spec, run with the bin directory as cwd. -/
def meiliBinSpec (dir : String) : LaunchSpec :=
  ⟨"cmd", ["/C", "start", "/B", "meilisearch.exe", "--master-key=regen2026"], some dir⟩

/-- The n8n-from-bin spec, run with the bin directory as cwd. -/
def n8nBinSpec (dir : String) : LaunchSpec :=
  ⟨"cmd", ["/C", "start", "/B", "n8n.exe", "start", "--tunnel"], some dir⟩

/-- The MeiliSearch-from-PATH spec. -/
def meiliPathSpec : LaunchSpec :=
  ⟨"cmd", ["/C", "start", "/B", "meilisearch", "--master-key=regen2026"], none⟩

/-- The startup Launcher of `main`'s setup closure: every `spawn()` result
is bound to `_` in the source, so each attempt records its spec and the
spawn outcome and nothing more; which specs are attempted depends only on
the host facts, never on an earlier spawn outcome, and no error is
returned. -/
def startupLaunches (env : StartupEnv) (spawn : LaunchSpec → Bool) :
    List (LaunchSpec × Bool) :=
  let ollamaRunning := env.ollamaListOutput.getD false
  (if ollamaRunning then [] else [(ollamaServeSpec, spawn ollamaServeSpec)]) ++
  [(ollamaPullSpec, spawn ollamaPullSpec)] ++
  (match env.binDir with
   | some dir =>
     if env.binDirExists then
       [(meiliBinSpec dir, spawn (meiliBinSpec dir)),
        (n8nBinSpec dir, spawn (n8nBinSpec dir))]
     else []
   | none => []) ++
  [(meiliPathSpec, spawn meiliPathSpec)]

/-- Trigger state of the Threshold Monitor. -/
inductive TriggerState where
  | Armed : TriggerState
  | Triggered : TriggerState
deriving DecidableEq

/-- Modelled from the spec: the Threshold Monitor is absent from src/
(only its specification exists).  Per-sample step of §4.1: while `Armed`,
a sample strictly above the high watermark moves to `Triggered` and emits
one warning; while `Triggered`, a sample strictly below the low watermark
re-arms silently; every other sample changes nothing and emits nothing. -/
def monitorStep (high low : ℕ) (st : TriggerState) (sample : ℕ) : TriggerState × Bool :=
  match st with
  | TriggerState.Armed =>
    if sample > high then (TriggerState.Triggered, true) else (TriggerState.Armed, false)
  | TriggerState.Triggered =>
    if sample < low then (TriggerState.Armed, false) else (TriggerState.Triggered, false)

/-- Modelled from the spec: the Monitor's polling loop folded over a
sample sequence, collecting the samples at which a `memory-warning` event
is emitted. -/
def monitorRun (high low : ℕ) (st : TriggerState) : List ℕ → List ℕ
  | [] => []
  | s :: rest =>
    let p := monitorStep high low st s
    if p.2 then s :: monitorRun high low p.1 rest
    else monitorRun high low p.1 rest

/-! Lemmas relating the chunk/line loops to the flat record sequence. -/

lemma processRecords_append (tok : String → Event) (endE : Event) (l1 l2 : List Record) :
    processRecords tok endE (l1 ++ l2) =
      (if (processRecords tok endE l1).2 then processRecords tok endE l1
       else ((processRecords tok endE l1).1 ++ (processRecords tok endE l2).1,
             (processRecords tok endE l2).2)) := by
  induction l1 with
  | nil => simp [processRecords]
  | cons r rest ih =>
    by_cases hd : r.done
    · simp [processRecords, hd]
    · cases hr : r.response with
      | some t =>
        by_cases h2 : (processRecords tok endE rest).2 <;>
          simp [processRecords, hd, hr, ih, h2]
      | none =>
        simp [processRecords, hd, hr, ih]

lemma processLines_eq_records (tok : String → Event) (endE : Event) (ls : List Line) :
    processLines tok endE ls = processRecords tok endE ((ls.map lineRecords).flatten) := by
  induction ls with
  | nil => simp [processLines, processRecords]
  | cons l rest ih =>
    cases l with
    | blank => simpa [processLines, lineRecords] using ih
    | badJson => simpa [processLines, lineRecords] using ih
    | record r =>
      by_cases hd : r.done
      · simp [processLines, lineRecords, processRecords, hd]
      · cases hr : r.response with
        | some t => simp [processLines, lineRecords, processRecords, hd, hr, ih]
        | none => simp [processLines, lineRecords, processRecords, hd, hr, ih]

lemma processChunks_eq_records (tok : String → Event) (endE : Event) (cs : List Chunk) :
    processChunks tok endE cs = processRecords tok endE (decodedRecords cs) := by
  induction cs with
  | nil => simp [processChunks, processRecords, decodedRecords]
  | cons c rest ih =>
    cases c with
    | chunkErr => simpa [processChunks, decodedRecords, chunkRecords] using ih
    | notUtf8 => simpa [processChunks, decodedRecords, chunkRecords] using ih
    | text ls =>
      have hdec : decodedRecords (Chunk.text ls :: rest) =
          (ls.map lineRecords).flatten ++ decodedRecords rest := by
        simp [decodedRecords, chunkRecords]
      rw [processChunks, hdec, processRecords_append, ← processLines_eq_records, ← ih]
      by_cases h2 : (processLines tok endE ls).2
      · simp only [h2, if_true]
        exact Prod.ext rfl h2.symm
      · simp [h2]

lemma research_stream_records (query : String) (cs : List Chunk) :
    research_stream query (Transport.response true cs) =
      (Event.researchStart query ::
         (processRecords Event.researchToken Event.researchEnd (decodedRecords cs)).1,
       if (processRecords Event.researchToken Event.researchEnd (decodedRecords cs)).2
       then Except.ok () else Except.error "Ollama not responding") := by
  rw [research_stream]
  simp only [if_true, processChunks_eq_records]
  by_cases h2 : (processRecords Event.researchToken Event.researchEnd (decodedRecords cs)).2
  · simp [h2]
  · simp [h2]

lemma trade_stream_records (symbol : String) (fetch : String → FetchOutcome)
    (cs : List Chunk) :
    trade_stream symbol fetch (Transport.response true cs) =
      (Event.tradePrice (quoteWithFallback symbol fetch).1 (quoteWithFallback symbol fetch).2 ::
         Event.tradeStreamStart symbol ::
         (processRecords Event.tradeToken Event.tradeStreamEnd (decodedRecords cs)).1,
       Except.ok ()) := by
  rw [trade_stream]
  simp [processChunks_eq_records]

lemma processRecords_tokensThenDone (tok : String → Event) (endE : Event)
    (ts : List String) (r : Option String) (rest : List Record) :
    processRecords tok endE
        (ts.map (fun s => Record.mk false (some s)) ++ Record.mk true r :: rest) =
      (ts.map tok ++ [endE], true) := by
  induction ts with
  | nil => simp [processRecords]
  | cons t more ih => simp [processRecords, ih]

lemma processRecords_noDone (tok : String → Event) (endE : Event) (recs : List Record)
    (h : ∀ r ∈ recs, r.done = false) :
    processRecords tok endE recs = ((recs.filterMap Record.response).map tok, false) := by
  induction recs with
  | nil => simp [processRecords]
  | cons r rest ih =>
    have hd : r.done = false := h r (List.mem_cons_self r rest)
    have hrest : ∀ x ∈ rest, x.done = false := fun x hx => h x (List.mem_cons_of_mem r hx)
    cases hr : r.response with
    | some t => simp [processRecords, hd, hr, ih hrest, List.filterMap_cons, hr]
    | none => simp [processRecords, hd, hr, ih hrest, List.filterMap_cons, hr]

/-! Lemmas showing the sink-threaded loops compute the same events and
result as the plain loops. -/

lemma processLinesS_fst (sink : ℕ → Bool) (tok : String → Event) (endE : Event)
    (ls : List Line) (n : ℕ) :
    (processLinesS sink tok endE ls n).1 = processLines tok endE ls := by
  induction ls generalizing n with
  | nil => simp [processLinesS, processLines]
  | cons l rest ih =>
    cases l with
    | blank => simp [processLinesS, processLines, ih]
    | badJson => simp [processLinesS, processLines, ih]
    | record r =>
      by_cases hd : r.done
      · simp [processLinesS, processLines, hd]
      · cases hr : r.response with
        | some t => simp [processLinesS, processLines, hd, hr, ih]
        | none => simp [processLinesS, processLines, hd, hr, ih]

lemma processChunksS_fst (sink : ℕ → Bool) (tok : String → Event) (endE : Event)
    (cs : List Chunk) (n : ℕ) :
    (processChunksS sink tok endE cs n).1 = processChunks tok endE cs := by
  induction cs generalizing n with
  | nil => simp [processChunksS, processChunks]
  | cons c rest ih =>
    cases c with
    | chunkErr => simp [processChunksS, processChunks, ih]
    | notUtf8 => simp [processChunksS, processChunks, ih]
    | text ls =>
      rw [processChunksS, processChunks, processLinesS_fst]
      by_cases h2 : (processLines tok endE ls).2
      · simp [h2, processLinesS_fst]
      · simp [h2, processLinesS_fst, ih]

lemma decodedRecords_middle (cs1 cs2 : List Chunk) (c : Chunk) (h : chunkRecords c = []) :
    decodedRecords (cs1 ++ c :: cs2) = decodedRecords (cs1 ++ cs2) := by
  simp [decodedRecords, h]

lemma decodedRecords_congr_chunk (cs1 cs2 : List Chunk) (c c' : Chunk)
    (h : chunkRecords c = chunkRecords c') :
    decodedRecords (cs1 ++ c :: cs2) = decodedRecords (cs1 ++ c' :: cs2) := by
  simp [decodedRecords, h]

lemma chunkRecords_middle (ls1 ls2 : List Line) (l : Line) (h : lineRecords l = []) :
    chunkRecords (Chunk.text (ls1 ++ l :: ls2)) = chunkRecords (Chunk.text (ls1 ++ ls2)) := by
  simp [chunkRecords, h]

/-- C1 counterexample: on a session whose decoded records are the fragment
record `a` followed by a terminal record, `trade_stream`'s emitted sequence
is not exactly `start`, `token("a")`, `end` — the `trade-price` quote event
comes first. -/
theorem C1_counterexample :
    (trade_stream "NIFTY" (fun _ => FetchOutcome.sendFail "x")
        (Transport.response true
          [Chunk.text [Line.record ⟨false, some "a"⟩, Line.record ⟨true, none⟩]])).1 ≠
      [Event.tradeStreamStart "NIFTY", Event.tradeToken "a", Event.tradeStreamEnd] := by
  decide

/-- C1 (amended): for every relay session whose decoded records are fragment
records followed by one terminal record, the relay emits the start event,
one token event per fragment in arrival order, then the end event, with
nothing after the end event, and returns success; for `trade_stream` this
relay sequence is immediately preceded by the single `trade-price` quote
event emitted before the session's start event. -/
theorem C1_stream_ordering_amended :
    (∀ (q : String) (cs : List Chunk) (ts : List String) (r : Option String),
      decodedRecords cs = ts.map (fun s => Record.mk false (some s)) ++ [Record.mk true r] →
      research_stream q (Transport.response true cs) =
        (Event.researchStart q :: ts.map Event.researchToken ++ [Event.researchEnd],
         Except.ok ()))
  ∧ (∀ (sym : String) (fetch : String → FetchOutcome) (cs : List Chunk)
       (ts : List String) (r : Option String),
      decodedRecords cs = ts.map (fun s => Record.mk false (some s)) ++ [Record.mk true r] →
      trade_stream sym fetch (Transport.response true cs) =
        (Event.tradePrice (quoteWithFallback sym fetch).1 (quoteWithFallback sym fetch).2 ::
           Event.tradeStreamStart sym :: ts.map Event.tradeToken ++ [Event.tradeStreamEnd],
         Except.ok ())) := by
  constructor
  · intro q cs ts r h
    rw [research_stream_records, h, processRecords_tokensThenDone]
    simp
  · intro sym fetch cs ts r h
    rw [trade_stream_records, h, processRecords_tokensThenDone]
    rfl

/-- C1 witness: concrete sessions with fragments `a`, `b` then a terminal
record (research), and fragment `a` then a terminal record (trade). -/
theorem C1_witness :
    research_stream "q" (Transport.response true
        [Chunk.text [Line.record ⟨false, some "a"⟩, Line.record ⟨false, some "b"⟩,
                     Line.record ⟨true, none⟩]]) =
      (Event.researchStart "q" ::
         ["a", "b"].map Event.researchToken ++ [Event.researchEnd], Except.ok ())
  ∧ trade_stream "S" (fun _ => FetchOutcome.sendFail "x") (Transport.response true
        [Chunk.text [Line.record ⟨false, some "a"⟩, Line.record ⟨true, none⟩]]) =
      (Event.tradePrice
          (quoteWithFallback "S" (fun _ => FetchOutcome.sendFail "x")).1
          (quoteWithFallback "S" (fun _ => FetchOutcome.sendFail "x")).2 ::
         Event.tradeStreamStart "S" :: ["a"].map Event.tradeToken ++ [Event.tradeStreamEnd],
       Except.ok ()) :=
  ⟨C1_stream_ordering_amended.1 "q" _ ["a", "b"] none rfl,
   C1_stream_ordering_amended.2 "S" _ _ ["a"] none rfl⟩

/-- C2 counterexample: on a session whose transport closes after the
fragment record `a` with no terminal record ever decoded, `trade_stream`
returns success, not the "upstream not responding" failure the claim
requires of it. -/
theorem C2_counterexample :
    (trade_stream "NIFTY" (fun _ => FetchOutcome.sendFail "x")
        (Transport.response true [Chunk.text [Line.record ⟨false, some "a"⟩]])).2 =
      Except.ok ()
  ∧ (trade_stream "NIFTY" (fun _ => FetchOutcome.sendFail "x")
        (Transport.response true [Chunk.text [Line.record ⟨false, some "a"⟩]])).2 ≠
      Except.error "Ollama not responding" := by
  constructor
  · rfl
  · intro h
    exact Except.noConfusion h

/-- C2 (amended): when the transport stream ends without any terminal
record being decoded, no end event is emitted by either command;
`research_stream` returns the failure `Ollama not responding` (the
"upstream not responding" classification), while `trade_stream` returns
success. -/
theorem C2_unterminated_amended :
    ∀ cs : List Chunk, (∀ r ∈ decodedRecords cs, r.done = false) →
      (∀ q : String,
        Event.researchEnd ∉ (research_stream q (Transport.response true cs)).1 ∧
        (research_stream q (Transport.response true cs)).2 =
          Except.error "Ollama not responding")
    ∧ (∀ (sym : String) (fetch : String → FetchOutcome),
        Event.tradeStreamEnd ∉ (trade_stream sym fetch (Transport.response true cs)).1 ∧
        (trade_stream sym fetch (Transport.response true cs)).2 = Except.ok ()) := by
  intro cs h
  constructor
  · intro q
    rw [research_stream_records, processRecords_noDone _ _ _ h]
    constructor
    · simp
    · simp
  · intro sym fetch
    rw [trade_stream_records, processRecords_noDone _ _ _ h]
    constructor
    · simp
    · rfl

/-- C2 witness: a concrete unterminated session containing only the
fragment record `a`. -/
theorem C2_witness :
    (Event.researchEnd ∉ (research_stream "q" (Transport.response true
        [Chunk.text [Line.record ⟨false, some "a"⟩]])).1 ∧
     (research_stream "q" (Transport.response true
        [Chunk.text [Line.record ⟨false, some "a"⟩]])).2 =
       Except.error "Ollama not responding")
  ∧ (Event.tradeStreamEnd ∉ (trade_stream "NIFTY" (fun _ => FetchOutcome.jsonFail "e")
        (Transport.response true [Chunk.text [Line.record ⟨false, some "a"⟩]])).1 ∧
     (trade_stream "NIFTY" (fun _ => FetchOutcome.jsonFail "e")
        (Transport.response true [Chunk.text [Line.record ⟨false, some "a"⟩]])).2 =
       Except.ok ()) :=
  ⟨(C2_unterminated_amended _ (by decide)).1 "q",
   (C2_unterminated_amended _ (by decide)).2 "NIFTY" (fun _ => FetchOutcome.jsonFail "e")⟩

/-- C3: modelled from the spec (the Threshold Monitor exists only in the
specification, not under src/); with high watermark 100 and low watermark
90, the sample sequence [50,105,95,105,80,105] emits exactly two
memory-warning events: none through [50], one at the first sample above
the high watermark, still only one while samples stay at or above the low
watermark, and a second only after a sample below the low watermark
re-arms the monitor and a later sample again exceeds the high
watermark. -/
theorem C3_hysteresis :
    monitorRun 100 90 TriggerState.Armed [50, 105, 95, 105, 80, 105] = [105, 105]
  ∧ monitorRun 100 90 TriggerState.Armed [50] = []
  ∧ monitorRun 100 90 TriggerState.Armed [50, 105] = [105]
  ∧ monitorRun 100 90 TriggerState.Armed [50, 105, 95] = [105]
  ∧ monitorRun 100 90 TriggerState.Armed [50, 105, 95, 105] = [105]
  ∧ monitorRun 100 90 TriggerState.Armed [50, 105, 95, 105, 80] = [105] := by
  decide

/-- C4: the quote-with-fallback path of `trade_stream` yields the
documented defaults (price 25000, change 0) on a transport failure, on a
decode failure, and per field when the field is absent, and `trade_stream`
never returns an error at all; under the identical transport or decode
failure, `trade_api` instead returns an explicit message-carrying
error. -/
theorem C4_fallback_asymmetry :
    (∀ (sym : String) (fetch : String → FetchOutcome) (e : String),
      fetch (yahooSymbol sym) = FetchOutcome.sendFail e →
      quoteWithFallback sym fetch = (25000, 0))
  ∧ (∀ (sym : String) (fetch : String → FetchOutcome) (e : String),
      fetch (yahooSymbol sym) = FetchOutcome.jsonFail e →
      quoteWithFallback sym fetch = (25000, 0))
  ∧ (∀ (sym : String) (fetch : String → FetchOutcome) (chart : YahooChart),
      fetch (yahooSymbol sym) = FetchOutcome.ok chart →
      chart.regularMarketPrice = none → (quoteWithFallback sym fetch).1 = 25000)
  ∧ (∀ (sym : String) (fetch : String → FetchOutcome) (chart : YahooChart),
      fetch (yahooSymbol sym) = FetchOutcome.ok chart →
      chart.regularMarketChangePercent = none → (quoteWithFallback sym fetch).2 = 0)
  ∧ (∀ (sym : String) (fetch : String → FetchOutcome) (t : Transport),
      (trade_stream sym fetch t).2 = Except.ok ())
  ∧ (∀ (sym : String) (fetch : String → FetchOutcome) (e : String),
      fetch (yahooSymbol sym) = FetchOutcome.sendFail e →
      trade_api sym fetch = Except.error ("Yahoo API failed: " ++ e))
  ∧ (∀ (sym : String) (fetch : String → FetchOutcome) (e : String),
      fetch (yahooSymbol sym) = FetchOutcome.jsonFail e →
      trade_api sym fetch = Except.error ("JSON parse failed: " ++ e)) := by
  refine ⟨?_, ?_, ?_, ?_, ?_, ?_, ?_⟩
  · intro sym fetch e h
    simp [quoteWithFallback, priceResOf, h]
  · intro sym fetch e h
    simp [quoteWithFallback, priceResOf, h]
  · intro sym fetch chart h hp
    simp [quoteWithFallback, priceResOf, h, hp]
  · intro sym fetch chart h hc
    simp [quoteWithFallback, priceResOf, h, hc]
  · intro sym fetch t
    cases t with
    | sendFail => rfl
    | response success chunks => cases success <;> simp [trade_stream]
  · intro sym fetch e h
    simp [trade_api, h]
  · intro sym fetch e h
    simp [trade_api, h]

/-- C4 witness: concrete transport-failed, decode-failed, and empty-chart
fetches instantiating every part of the asymmetry. -/
theorem C4_witness :
    quoteWithFallback "NIFTY" (fun _ => FetchOutcome.sendFail "boom") = (25000, 0)
  ∧ quoteWithFallback "NIFTY" (fun _ => FetchOutcome.jsonFail "bad") = (25000, 0)
  ∧ (quoteWithFallback "X" (fun _ => FetchOutcome.ok ⟨none, none⟩)).1 = 25000
  ∧ (quoteWithFallback "X" (fun _ => FetchOutcome.ok ⟨none, none⟩)).2 = 0
  ∧ (trade_stream "NIFTY" (fun _ => FetchOutcome.sendFail "boom") Transport.sendFail).2 =
      Except.ok ()
  ∧ trade_api "NIFTY" (fun _ => FetchOutcome.sendFail "boom") =
      Except.error ("Yahoo API failed: " ++ "boom")
  ∧ trade_api "NIFTY" (fun _ => FetchOutcome.jsonFail "bad") =
      Except.error ("JSON parse failed: " ++ "bad") :=
  ⟨C4_fallback_asymmetry.1 "NIFTY" _ "boom" rfl,
   C4_fallback_asymmetry.2.1 "NIFTY" _ "bad" rfl,
   C4_fallback_asymmetry.2.2.1 "X" _ ⟨none, none⟩ rfl rfl,
   C4_fallback_asymmetry.2.2.2.1 "X" _ ⟨none, none⟩ rfl rfl,
   C4_fallback_asymmetry.2.2.2.2.1 "NIFTY" _ Transport.sendFail,
   C4_fallback_asymmetry.2.2.2.2.2.1 "NIFTY" _ "boom" rfl,
   C4_fallback_asymmetry.2.2.2.2.2.2 "NIFTY" _ "bad" rfl⟩

/-- C5: a failed chunk, a chunk that is not valid UTF-8, a blank line, and
a line that fails JSON parsing are each skipped silently: removing (or,
read right to left, inserting) any one of them anywhere leaves the whole
session output of both relay commands — all events, in order, and the
returned result — unchanged. -/
theorem C5_malformed_resilience :
    (∀ (q : String) (cs1 cs2 : List Chunk),
      research_stream q (Transport.response true (cs1 ++ Chunk.chunkErr :: cs2)) =
      research_stream q (Transport.response true (cs1 ++ cs2)))
  ∧ (∀ (q : String) (cs1 cs2 : List Chunk),
      research_stream q (Transport.response true (cs1 ++ Chunk.notUtf8 :: cs2)) =
      research_stream q (Transport.response true (cs1 ++ cs2)))
  ∧ (∀ (q : String) (cs1 cs2 : List Chunk) (ls1 ls2 : List Line),
      research_stream q (Transport.response true
          (cs1 ++ Chunk.text (ls1 ++ Line.blank :: ls2) :: cs2)) =
      research_stream q (Transport.response true
          (cs1 ++ Chunk.text (ls1 ++ ls2) :: cs2)))
  ∧ (∀ (q : String) (cs1 cs2 : List Chunk) (ls1 ls2 : List Line),
      research_stream q (Transport.response true
          (cs1 ++ Chunk.text (ls1 ++ Line.badJson :: ls2) :: cs2)) =
      research_stream q (Transport.response true
          (cs1 ++ Chunk.text (ls1 ++ ls2) :: cs2)))
  ∧ (∀ (sym : String) (fetch : String → FetchOutcome) (cs1 cs2 : List Chunk),
      trade_stream sym fetch (Transport.response true (cs1 ++ Chunk.chunkErr :: cs2)) =
      trade_stream sym fetch (Transport.response true (cs1 ++ cs2)))
  ∧ (∀ (sym : String) (fetch : String → FetchOutcome) (cs1 cs2 : List Chunk),
      trade_stream sym fetch (Transport.response true (cs1 ++ Chunk.notUtf8 :: cs2)) =
      trade_stream sym fetch (Transport.response true (cs1 ++ cs2)))
  ∧ (∀ (sym : String) (fetch : String → FetchOutcome) (cs1 cs2 : List Chunk)
       (ls1 ls2 : List Line),
      trade_stream sym fetch (Transport.response true
          (cs1 ++ Chunk.text (ls1 ++ Line.blank :: ls2) :: cs2)) =
      trade_stream sym fetch (Transport.response true
          (cs1 ++ Chunk.text (ls1 ++ ls2) :: cs2)))
  ∧ (∀ (sym : String) (fetch : String → FetchOutcome) (cs1 cs2 : List Chunk)
       (ls1 ls2 : List Line),
      trade_stream sym fetch (Transport.response true
          (cs1 ++ Chunk.text (ls1 ++ Line.badJson :: ls2) :: cs2)) =
      trade_stream sym fetch (Transport.response true
          (cs1 ++ Chunk.text (ls1 ++ ls2) :: cs2))) := by
  refine ⟨?_, ?_, ?_, ?_, ?_, ?_, ?_, ?_⟩
  · intro q cs1 cs2
    rw [research_stream_records, research_stream_records,
        decodedRecords_middle cs1 cs2 Chunk.chunkErr rfl]
  · intro q cs1 cs2
    rw [research_stream_records, research_stream_records,
        decodedRecords_middle cs1 cs2 Chunk.notUtf8 rfl]
  · intro q cs1 cs2 ls1 ls2
    rw [research_stream_records, research_stream_records,
        decodedRecords_congr_chunk cs1 cs2 _ _ (chunkRecords_middle ls1 ls2 Line.blank rfl)]
  · intro q cs1 cs2 ls1 ls2
    rw [research_stream_records, research_stream_records,
        decodedRecords_congr_chunk cs1 cs2 _ _ (chunkRecords_middle ls1 ls2 Line.badJson rfl)]
  · intro sym fetch cs1 cs2
    rw [trade_stream_records, trade_stream_records,
        decodedRecords_middle cs1 cs2 Chunk.chunkErr rfl]
  · intro sym fetch cs1 cs2
    rw [trade_stream_records, trade_stream_records,
        decodedRecords_middle cs1 cs2 Chunk.notUtf8 rfl]
  · intro sym fetch cs1 cs2 ls1 ls2
    rw [trade_stream_records, trade_stream_records,
        decodedRecords_congr_chunk cs1 cs2 _ _ (chunkRecords_middle ls1 ls2 Line.blank rfl)]
  · intro sym fetch cs1 cs2 ls1 ls2
    rw [trade_stream_records, trade_stream_records,
        decodedRecords_congr_chunk cs1 cs2 _ _ (chunkRecords_middle ls1 ls2 Line.badJson rfl)]

/-- C6: which launch specs the startup Launcher attempts, and their
order, depends only on the host facts (ollama probe, bin directory) and
never on any spawn outcome — every spawn result in the source is bound to
`_` — so a failed spawn cannot prevent any remaining attempt and is never
reported upward; the unconditional specs (`ollama pull`, MeiliSearch from
PATH) are attempted in every environment. -/
theorem C6_launcher_independence :
    (∀ (env : StartupEnv) (spawn spawn2 : LaunchSpec → Bool),
      (startupLaunches env spawn).map Prod.fst =
      (startupLaunches env spawn2).map Prod.fst)
  ∧ (∀ (env : StartupEnv) (spawn : LaunchSpec → Bool),
      ollamaPullSpec ∈ (startupLaunches env spawn).map Prod.fst)
  ∧ (∀ (env : StartupEnv) (spawn : LaunchSpec → Bool),
      meiliPathSpec ∈ (startupLaunches env spawn).map Prod.fst) := by
  refine ⟨?_, ?_, ?_⟩
  · intro env spawn spawn2
    unfold startupLaunches
    cases env.ollamaListOutput.getD false <;> cases h2 : env.binDir <;>
      cases env.binDirExists <;> simp
  · intro env spawn
    unfold startupLaunches
    cases env.ollamaListOutput.getD false <;> cases h2 : env.binDir <;>
      cases env.binDirExists <;> simp
  · intro env spawn
    unfold startupLaunches
    cases env.ollamaListOutput.getD false <;> cases h2 : env.binDir <;>
      cases env.binDirExists <;> simp

/-- C7: in every session the start event carrying the original request
subject comes before any token or end event: a `research_stream` session
either emits nothing or its first event is `research-start(query)`, and a
`trade_stream` session emits the quote event and then either nothing or
`trade-stream-start(symbol)` before everything else. -/
theorem C7_start_first :
    (∀ (q : String) (t : Transport),
      (research_stream q t).1 = [] ∨
      ∃ evs, (research_stream q t).1 = Event.researchStart q :: evs)
  ∧ (∀ (sym : String) (fetch : String → FetchOutcome) (t : Transport),
      (trade_stream sym fetch t).1 =
        [Event.tradePrice (quoteWithFallback sym fetch).1 (quoteWithFallback sym fetch).2] ∨
      ∃ evs, (trade_stream sym fetch t).1 =
        Event.tradePrice (quoteWithFallback sym fetch).1 (quoteWithFallback sym fetch).2 ::
        Event.tradeStreamStart sym :: evs) := by
  constructor
  · intro q t
    cases t with
    | sendFail => left; rfl
    | response success chunks =>
      cases success with
      | false => left; rfl
      | true =>
        right
        refine ⟨(processRecords Event.researchToken Event.researchEnd
          (decodedRecords chunks)).1, ?_⟩
        rw [research_stream_records]
  · intro sym fetch t
    cases t with
    | sendFail => left; rfl
    | response success chunks =>
      cases success with
      | false => left; rfl
      | true =>
        right
        refine ⟨(processRecords Event.tradeToken Event.tradeStreamEnd
          (decodedRecords chunks)).1, ?_⟩
        rw [trade_stream_records]

/-- C8: each `window.emit(..)` result is discarded with `.ok()`, so
for every Event Sink outcome oracle the sink-threaded commands attempt the
same events in the same order and return the same result as the plain
ones: no individual emission failure aborts the chunk loop or changes the
session's result. -/
theorem C8_emit_best_effort :
    (∀ (q : String) (t : Transport) (sink : ℕ → Bool),
      research_streamS q t sink = research_stream q t)
  ∧ (∀ (sym : String) (fetch : String → FetchOutcome) (t : Transport) (sink : ℕ → Bool),
      trade_streamS sym fetch t sink = trade_stream sym fetch t) := by
  constructor
  · intro q t sink
    cases t with
    | sendFail => rfl
    | response success chunks =>
      cases success with
      | false => rfl
      | true => simp [research_streamS, research_stream, processChunksS_fst]
  · intro sym fetch t sink
    cases t with
    | sendFail => rfl
    | response success chunks =>
      cases success with
      | false => rfl
      | true => simp [trade_streamS, trade_stream, processChunksS_fst]

/-- C9: both quote paths map the exact symbol `NIFTY` to the provider
identifier `^NSEI` and every other symbol to `^NSEBANK`, and `trade_api`
and `trade_stream` consult the provider only at that identifier: two
fetchers agreeing there produce identical outcomes, so an unrecognized
symbol is silently treated as the bank index. -/
theorem C9_provider_symbols :
    yahooSymbol "NIFTY" = "^NSEI"
  ∧ (∀ sym : String, sym ≠ "NIFTY" → yahooSymbol sym = "^NSEBANK")
  ∧ (∀ (sym : String) (f g : String → FetchOutcome),
      f (yahooSymbol sym) = g (yahooSymbol sym) → trade_api sym f = trade_api sym g)
  ∧ (∀ (sym : String) (f g : String → FetchOutcome) (t : Transport),
      f (yahooSymbol sym) = g (yahooSymbol sym) →
      trade_stream sym f t = trade_stream sym g t) := by
  refine ⟨rfl, ?_, ?_, ?_⟩
  · intro sym h
    simp [yahooSymbol, h]
  · intro sym f g h
    unfold trade_api
    rw [h]
  · intro sym f g t h
    unfold trade_stream quoteWithFallback priceResOf
    rw [h]

/-- C9 witness: the unrecognized symbol `BANKNIFTY` maps to `^NSEBANK`,
and two fetchers that agree at `^NSEBANK` alone give the same `trade_api`
and `trade_stream` outcomes for it. -/
theorem C9_witness :
    yahooSymbol "BANKNIFTY" = "^NSEBANK"
  ∧ trade_api "BANKNIFTY" (fun _ => FetchOutcome.jsonFail "e") =
      trade_api "BANKNIFTY"
        (fun s => if s == "^NSEBANK" then FetchOutcome.jsonFail "e"
                  else FetchOutcome.ok ⟨none, none⟩)
  ∧ trade_stream "BANKNIFTY" (fun _ => FetchOutcome.jsonFail "e") Transport.sendFail =
      trade_stream "BANKNIFTY"
        (fun s => if s == "^NSEBANK" then FetchOutcome.jsonFail "e"
                  else FetchOutcome.ok ⟨none, none⟩) Transport.sendFail :=
  ⟨C9_provider_symbols.2.1 "BANKNIFTY" (by decide),
   C9_provider_symbols.2.2.1 "BANKNIFTY" _ _ (by decide),
   C9_provider_symbols.2.2.2 "BANKNIFTY" _ _ Transport.sendFail (by decide)⟩

/-- C10: when `research_stream`'s initial request fails to send or
returns a non-success status, no event at all is emitted and the command
returns the error `Ollama not responding`; the start event appears in a
session's emissions exactly when the request completed with a success
status. -/
theorem C10_start_iff_success :
    (∀ q : String, research_stream q Transport.sendFail =
        ([], Except.error "Ollama not responding"))
  ∧ (∀ (q : String) (cs : List Chunk),
      research_stream q (Transport.response false cs) =
        ([], Except.error "Ollama not responding"))
  ∧ (∀ (q : String) (t : Transport),
      Event.researchStart q ∈ (research_stream q t).1 ↔
        ∃ cs, t = Transport.response true cs) := by
  refine ⟨fun q => rfl, fun q cs => rfl, ?_⟩
  intro q t
  cases t with
  | sendFail => simp [research_stream]
  | response success chunks =>
    cases success with
    | false => simp [research_stream]
    | true =>
      constructor
      · intro _
        exact ⟨chunks, rfl⟩
      · intro _
        rw [research_stream_records]
        exact List.mem_cons_self _ _

end Omnibrowser
